import Mathlib

/-! Verification of the presentui terminal slide presenter (src/main.rs).
The development shallowly embeds the slide kinds, the renderer dispatch,
the input classifier and the presentation loop, and proves the stated
properties about them. Machine integers are modelled as natural numbers:
saturating operations clamp explicitly, unchecked unsigned subtractions
become Option-valued (none models the debug-mode underflow panic), and
u16 casts truncate modulo 65536. -/

namespace Presentui

/-- Slide kinds, from the FileTypes enum of the source: each variant
carries one string payload, a path or literal text. -/
inductive FileTypes
  | Markdown (path : String)
  | Image (path : String)
  | GifAnimation (path : String)
  | Open (path : String)
  | Print (content : String)
  | FIGlet (content : String)
  | Code (path : String)
  deriving DecidableEq

/-- Largest value of the 64-bit usize type; the saturating arithmetic of
the source clamps to this bound. -/
def usizeMax : Nat := 2 ^ 64 - 1

/-- Model of usize saturating addition on a 64-bit platform. -/
def satAdd (a b : Nat) : Nat := min (a + b) usizeMax

/-- Split a character list at newline characters; the char-level core of
the line iterator used by the source. -/
def splitNl : List Char → List (List Char)
  | [] => [[]]
  | '\n' :: rest => [] :: splitNl rest
  | c :: rest =>
    match splitNl rest with
    | [] => [[c]]
    | l :: ls => (c :: l) :: ls

/-- Strip one trailing carriage return, as the Rust line iterator does for
lines terminated by a CRLF sequence. -/
def stripCR (l : List Char) : List Char :=
  match l.reverse with
  | '\r' :: init => init.reverse
  | _ => l

/-- Model of the Rust str lines iterator: split on newline, strip a
carriage return from every newline-terminated line, and drop the empty
fragment after a trailing newline. Rust byte lengths coincide with the
character counts used here for the ASCII payloads in scope. -/
def rustLines (s : String) : List String :=
  match (splitNl s.data).reverse with
  | [] => []
  | lastPart :: revInit =>
    let init := (revInit.map fun l => String.mk (stripCR l)).reverse
    if lastPart.isEmpty then init else init ++ [String.mk lastPart]

/-- From fn text_size of the source: width is one plus the longest line's
length, height is the line count. -/
def text_size (s : String) : Nat × Nat :=
  (1 + (rustLines s).foldl (fun acc l => max acc l.length) 0, (rustLines s).length)

/-- Checked unsigned subtraction: none models the debug-mode panic of a
Rust unsigned subtraction that underflows. -/
def checkedSub (a b : Nat) : Option Nat :=
  if b ≤ a then some (a - b) else none

/-- Geometry of the Markdown branch of the show method: the available
width is the terminal width minus twice the margin (usize, unchecked),
the area width is the document width capped to it and cast to u16, the
area height is the terminal height minus twice the u16-cast margin
(unchecked), and the origin centers the area with floor division (the
zero max of the source is a no-op on unsigned values). A none result
models the underflow panic. -/
def markdownArea (width height margin textW : Nat) : Option (Nat × Nat × Nat × Nat) :=
  match checkedSub width (margin * 2) with
  | none => none
  | some avail =>
    let areaW := min textW avail % 65536
    match checkedSub height (margin % 65536 * 2) with
    | none => none
    | some areaH =>
      some (max 0 ((width - areaW) / 2), max 0 ((height - areaH) / 2), areaW, areaH)

/-- Origin computation of the Code branch of the show method: the content
size from text_size is cast to u16 and subtracted from the terminal size
without saturation; none models the underflow panic reached when the
content is wider or taller than the terminal. -/
def codeOrigin (width height tw th : Nat) : Option (Nat × Nat) :=
  match checkedSub width (tw % 65536), checkedSub height (th % 65536) with
  | some dx, some dy => some (dx / 2, dy / 2)
  | _, _ => none

/-- From the write_text helper of the source: every line is centered
independently with saturating subtraction; the result is the list of
(column, row, text) writes. -/
def write_text (width height : Nat) (txt : String) : List (Nat × Nat × String) :=
  let ls := rustLines txt
  let top := (height - ls.length) / 2
  ls.enum.map fun il => ((width - il.2.length) / 2, top + il.1, il.2)

/-- Failure modes surfaced by rendering: a file-read error propagated by
the question-mark operator, or a debug-mode arithmetic underflow panic. -/
inductive RenderErr
  | ioError
  | crash
  deriving DecidableEq

/-- Observable output of a successful render: an external viewer
invocation, a list of positioned text writes, a markdown area render, or
block-letter art. -/
inductive RenderOut
  | viu (args : List String)
  | writes (ws : List (Nat × Nat × String))
  | markdown (x y areaW areaH : Nat) (doc : String)
  | figlet (art : String)
  deriving DecidableEq

/-- Model of the show method of FileTypes (named render here because show
is a Lean keyword). External collaborators are passed in: fig is the
block-letter conversion, hl the per-line syntax highlighter, fs the file
system mapping a path to its contents with none standing for an I/O
error. The raw-mode toggling around external viewer calls is not part of
the observable output. -/
def render (fig hl : String → String) (fs : String → Option String)
    (width height margin : Nat) : FileTypes → Except RenderErr RenderOut
  | .GifAnimation path => .ok (.viu ["-s", path])
  | .Image path => .ok (.viu ["-w" ++ toString width, "-h" ++ toString height, path])
  | .Print txt => .ok (.writes (write_text width height txt))
  | .Markdown path =>
    match fs path with
    | none => .error .ioError
    | some md =>
      match markdownArea width height margin (text_size md).1 with
      | none => .error .crash
      | some (x, y, aw, ah) => .ok (.markdown x y aw ah md)
  | .Open path =>
    .ok (.writes (write_text width height
      ("External file:\n" ++ path ++ "\n\npress enter to open")))
  | .Code path =>
    match fs path with
    | none => .error .ioError
    | some content =>
      match codeOrigin width height (text_size content).1 (text_size content).2 with
      | none => .error .crash
      | some (x, y) =>
        .ok (.writes ((rustLines content).enum.map fun il => (x, y + il.1, hl il.2)))
  | .FIGlet txt => .ok (.figlet (fig txt))

/-- One child-process invocation: program name and argument list. -/
structure ProcCall where
  prog : String
  args : List String
  deriving DecidableEq

/-- Model of the action method of FileTypes on the linux target: Open and
Image slides launch the OS default application through xdg-open on the
slide's path, a GifAnimation slide plays the animation through the
external viewer with the loop-once flag, and every other kind performs
nothing. -/
def action : FileTypes → List ProcCall
  | .Open path | .Image path => [⟨"xdg-open", [path]⟩]
  | .GifAnimation path => [⟨"viu", ["-1", path]⟩]
  | _ => []

/-- Abstract commands produced by the input classifier (the Input enum). -/
inductive Input
  | None
  | Previous
  | Next
  | Margin (plus : Bool)
  | Action
  | Quit
  deriving DecidableEq

/-- Key codes of the crossterm event model consumed by the classifier. -/
inductive KeyCode
  | Backspace | Enter | Left | Right | Up | Down | Home | End
  | PageUp | PageDown | Tab | BackTab | Delete | Insert
  | F (n : Nat) | Char (c : Char) | Null | Esc
  deriving DecidableEq

/-- Modifier bitflags attached to a key event; the classifier ignores
them entirely. -/
structure KeyModifiers where
  bits : Nat
  deriving DecidableEq

/-- A crossterm key event: key code plus modifiers. -/
structure KeyEvent where
  code : KeyCode
  modifiers : KeyModifiers
  deriving DecidableEq

/-- A crossterm terminal event. Mouse payloads are irrelevant to the
classifier and omitted. -/
inductive Event
  | Key (ev : KeyEvent)
  | Mouse
  | Resize (w h : Nat)
  deriving DecidableEq

/-- Classification performed by fn read_input: the pattern matches of the
source in source order, on the key code only, with the wildcard arms
sending every other key event and every non-key event to Input.None. The
Result wrapper of the source can only fail in the OS read itself, never
in the classification, which is total. -/
def read_input : Event → Input
  | .Key ⟨.Down, _⟩ => .Next
  | .Key ⟨.Up, _⟩ => .Previous
  | .Key ⟨.Char '+', _⟩ => .Margin true
  | .Key ⟨.Char '-', _⟩ => .Margin false
  | .Key ⟨.Esc, _⟩ => .Quit
  | .Key ⟨.Enter, _⟩ => .Action
  | .Key _ => .None
  | _ => .None

/-- The presentation loop's mutable state: current slide index and
current margin, both usize in the source. -/
structure PState where
  idx : Nat
  margin : Nat
  deriving DecidableEq

/-- The state transition applied by one classified command, factored from
the match statement of fn present: Next and increasing Margin use usize
saturating addition, Previous and decreasing Margin use saturating
subtraction (which natural subtraction is), Action and None leave the
state unchanged, and Quit never reaches this function because the loop
breaks first. -/
def step : Input → PState → PState
  | .Next, s => { s with idx := satAdd s.idx 1 }
  | .Previous, s => { s with idx := s.idx - 1 }
  | .Margin true, s => { s with margin := satAdd s.margin 1 }
  | .Margin false, s => { s with margin := s.margin - 1 }
  | .Action, s => s
  | .None, s => s
  | .Quit, s => s

/-- The deck: an ordered list of slides (the Slides struct). -/
structure Slides where
  files : List FileTypes
  deriving DecidableEq

/-- How a run of the presentation loop ends: normal end of deck, an
explicit quit, a propagated render or activation error, or still blocked
waiting for input beyond the supplied events. -/
inductive Outcome
  | ended
  | quit
  | failed (e : RenderErr)
  | blocked
  deriving DecidableEq

/-- Continuation of one loop iteration: either the loop stops with an
outcome or it proceeds to the next iteration in a new state. -/
inductive IterRes
  | stop (o : Outcome)
  | next (s : PState)
  deriving DecidableEq

/-- One full iteration of fn present when an input event is available.
Rendering and activation are abstracted as result oracles r and a, since
the loop inspects only their success or failure. The iteration looks up
the slide at the current index, ending the loop normally when there is
none; renders it, failing the run on error; then dispatches the
classified input: Quit breaks the loop, Action re-fetches the slide and
runs its action propagating any error, and every other command updates
the state through step. -/
def iterate (slides : Slides) (r : FileTypes → Nat → Except RenderErr Unit)
    (a : FileTypes → Except RenderErr Unit) (inp : Input) (s : PState) : IterRes :=
  match slides.files.get? s.idx with
  | none => .stop .ended
  | some f =>
    match r f s.margin with
    | .error e => .stop (.failed e)
    | .ok _ =>
      match inp with
      | .Quit => .stop .quit
      | .Action =>
        match slides.files.get? s.idx with
        | none => .next (step .Action s)
        | some f2 =>
          match a f2 with
          | .error e => .stop (.failed e)
          | .ok _ => .next (step .Action s)
      | c => .next (step c s)

/-- The trailing partial iteration of fn present once the supplied input
events are exhausted: the loop still checks the slide and renders before
blocking on the OS event read. -/
def finalIter (slides : Slides) (r : FileTypes → Nat → Except RenderErr Unit)
    (s : PState) : Outcome :=
  match slides.files.get? s.idx with
  | none => .ended
  | some f =>
    match r f s.margin with
    | .error e => .failed e
    | .ok _ => .blocked

/-- Model of fn present over a finite list of classified input events:
iterate consumes the inputs one per loop iteration until one iteration
stops the loop, and a run that exhausts its inputs performs the last
slide lookup and render before blocking on the next OS event. -/
def present (slides : Slides) (r : FileTypes → Nat → Except RenderErr Unit)
    (a : FileTypes → Except RenderErr Unit) : List Input → PState → Outcome
  | [], s => finalIter slides r s
  | inp :: rest, s =>
    match iterate slides r a inp s with
    | .stop o => o
    | .next s2 => present slides r a rest s2

/-- Terminal-mode operations performed by fn main around the loop. -/
inductive TermOp
  | enableRaw
  | hideCursor
  | showCursor
  | disableRaw
  deriving DecidableEq

/-- Terminal operations fn main performs for a given loop outcome: raw
mode and cursor hiding are set up before the loop; the question-mark
operator on the present call returns early on error, so the cursor-show
and raw-mode-disable calls execute only after the loop returns Ok, that
is on a quit or end-of-deck exit. A blocked run has not exited yet. -/
def mainTrace (slides : Slides) (r : FileTypes → Nat → Except RenderErr Unit)
    (a : FileTypes → Except RenderErr Unit) (ins : List Input) : List TermOp :=
  match present slides r a ins ⟨0, 2⟩ with
  | .ended => [.enableRaw, .hideCursor, .showCursor, .disableRaw]
  | .quit => [.enableRaw, .hideCursor, .showCursor, .disableRaw]
  | .failed _ => [.enableRaw, .hideCursor]
  | .blocked => [.enableRaw, .hideCursor]

/-- Discriminator for the one slide kind whose rendering reads the
margin. -/
def isMarkdown : FileTypes → Bool
  | .Markdown _ => true
  | _ => false

/-- Render oracle that always succeeds. -/
def okRender : FileTypes → Nat → Except RenderErr Unit := fun _ _ => .ok ()

/-- Activation oracle that always succeeds. -/
def okAction : FileTypes → Except RenderErr Unit := fun _ => .ok ()

/-- Render oracle that always fails with an I/O error. -/
def badRender : FileTypes → Nat → Except RenderErr Unit := fun _ _ => .error .ioError

/-- A forty-character line. -/
def line40 : String := String.mk (List.replicate 40 'x')

/-- A markdown document whose longest line is forty characters. -/
def doc40 : String := "# Demo\n" ++ line40 ++ "\nend\n"

/-- File system fixture holding doc40 at one path. -/
def fsDoc : String → Option String := fun p => if p = "doc.md" then some doc40 else none

/-- A source file fixture whose single line is one hundred characters. -/
def wideSrc : String := String.mk (List.replicate 100 'a')

/-- File system fixture holding wideSrc at one path. -/
def fsWide : String → Option String := fun p => if p = "main.rs" then some wideSrc else none

/-- A source file fixture that fits an 80 by 24 terminal. -/
def smallSrc : String := "fn main"

/-- File system fixture holding smallSrc at one path. -/
def fsSmall : String → Option String := fun p => if p = "s.rs" then some smallSrc else none

/-- Identity string collaborator used to instantiate render in witnesses. -/
def idStr : String → String := fun s => s

/-- The usize bound as a literal, convenient for omega. -/
theorem usizeMax_eq : usizeMax = 18446744073709551615 := by norm_num [usizeMax]

/-- C1: the loop transition for each classified command: Next increments
the index with saturating addition leaving the margin unchanged, Previous
decrements it saturating at zero (in particular index 0 stays 0),
IncreaseMargin and DecreaseMargin saturating-adjust only the margin, and
NoOp changes neither field. -/
theorem step_transition_table :
    (∀ i m, step .Next ⟨i, m⟩ = ⟨min (i + 1) usizeMax, m⟩)
    ∧ (∀ i m, step .Previous ⟨i, m⟩ = ⟨i - 1, m⟩)
    ∧ (∀ m, step .Previous ⟨0, m⟩ = ⟨0, m⟩)
    ∧ (∀ i m, step (.Margin true) ⟨i, m⟩ = ⟨i, min (m + 1) usizeMax⟩)
    ∧ (∀ i m, step (.Margin false) ⟨i, m⟩ = ⟨i, m - 1⟩)
    ∧ (∀ i m, step .None ⟨i, m⟩ = ⟨i, m⟩) :=
  ⟨fun _ _ => rfl, fun _ _ => rfl, fun _ => rfl, fun _ _ => rfl, fun _ _ => rfl,
    fun _ _ => rfl⟩

/-- C5: activation is empty for Markdown, Text, Banner and Source slides;
an Open or Image slide launches exactly one default-application process on
the slide's path; a GifAnimation slide plays the animation through the
external viewer with the loop-once flag, a different mode from the
single-frame flag used when the same slide is rendered. -/
theorem action_dispatch :
    (∀ p, action (.Markdown p) = [])
    ∧ (∀ t, action (.Print t) = [])
    ∧ (∀ t, action (.FIGlet t) = [])
    ∧ (∀ p, action (.Code p) = [])
    ∧ (∀ p, action (.Open p) = [⟨"xdg-open", [p]⟩])
    ∧ (∀ p, action (.Image p) = [⟨"xdg-open", [p]⟩])
    ∧ (∀ p, action (.GifAnimation p) = [⟨"viu", ["-1", p]⟩]
        ∧ ∀ fig hl fs w h m,
            render fig hl fs w h m (.GifAnimation p) = .ok (.viu ["-s", p])) :=
  ⟨fun _ => rfl, fun _ => rfl, fun _ => rfl, fun _ => rfl, fun _ => rfl, fun _ => rfl,
    fun _ => ⟨rfl, fun _ _ _ _ _ _ => rfl⟩⟩

/-- C6 as stated is false on the code: at the saturation bound the
increment is absorbed, so IncreaseMargin followed by DecreaseMargin lands
one below the original margin. -/
theorem margin_roundtrip_counterexample :
    step (.Margin false) (step (.Margin true) ⟨0, usizeMax⟩) ≠ ⟨0, usizeMax⟩ := by
  simp only [step, satAdd, usizeMax_eq]
  intro h
  have := congrArg PState.margin h
  simp at this

/-- C6 amended: below the usize saturation bound, IncreaseMargin followed
immediately by DecreaseMargin restores the original margin, and
DecreaseMargin at margin 0 keeps the margin at 0. -/
theorem margin_roundtrip (i m : Nat) (hm : m < usizeMax) :
    step (.Margin false) (step (.Margin true) ⟨i, m⟩) = ⟨i, m⟩
    ∧ step (.Margin false) ⟨i, 0⟩ = ⟨i, 0⟩ := by
  constructor
  · simp only [step, satAdd, usizeMax_eq] at *
    congr 1
    omega
  · rfl

/-- Witness for the amended C6 at margin 2. -/
theorem margin_roundtrip_witness :
    step (.Margin false) (step (.Margin true) ⟨0, 2⟩) = ⟨0, 2⟩
    ∧ step (.Margin false) ⟨0, 0⟩ = ⟨0, 0⟩ :=
  margin_roundtrip 0 2 (by rw [usizeMax_eq]; omega)

/-- C4 as stated is false on the code: on a 3 by 24 terminal with margin 2
the width subtraction underflows, so the markdown geometry computation
panics (modelled by none) instead of clamping to a zero-area rectangle,
and the render aborts. -/
theorem markdown_small_terminal_counterexample :
    markdownArea 3 24 2 41 = none
    ∧ render idStr idStr fsDoc 3 24 2 (.Markdown "doc.md") = .error .crash :=
  ⟨rfl, rfl⟩

/-- C4 amended: for a margin in u16 range, the markdown geometry
computation fails, modelling the debug-mode underflow panic, exactly when
the terminal is too small, that is when the terminal width is below twice
the margin or the terminal height is below twice the margin; no clamping
to a zero-area rectangle is performed. -/
theorem markdown_small_terminal (w h m tw : Nat) (hm : m < 65536) :
    markdownArea w h m tw = none ↔ (w < 2 * m ∨ h < 2 * m) := by
  unfold markdownArea checkedSub
  rw [Nat.mod_eq_of_lt hm]
  by_cases h1 : m * 2 ≤ w
  · by_cases h2 : m * 2 ≤ h
    · simp [h1, h2]
      omega
    · simp [h1, h2]
      omega
  · simp [h1]
    omega

/-- Witness for the amended C4: a 100 by 3 terminal with margin 2 is too
short and the geometry computation indeed fails. -/
theorem markdown_small_terminal_witness : markdownArea 100 3 2 41 = none :=
  (markdown_small_terminal 100 3 2 41 (by omega)).mpr (Or.inr (by omega))

/-- C2: the classifier is a total function from events to commands: Down
yields Next, Up yields Previous, plus and minus yield the margin commands,
Enter yields Activate and Escape yields Quit, each for every modifier
combination; every other key event and every resize or mouse event yields
NoOp, never an error. -/
theorem read_input_classification :
    (∀ m, read_input (.Key ⟨.Down, m⟩) = .Next)
    ∧ (∀ m, read_input (.Key ⟨.Up, m⟩) = .Previous)
    ∧ (∀ m, read_input (.Key ⟨.Char '+', m⟩) = .Margin true)
    ∧ (∀ m, read_input (.Key ⟨.Char '-', m⟩) = .Margin false)
    ∧ (∀ m, read_input (.Key ⟨.Enter, m⟩) = .Action)
    ∧ (∀ m, read_input (.Key ⟨.Esc, m⟩) = .Quit)
    ∧ (∀ ev : KeyEvent, ev.code ≠ .Down → ev.code ≠ .Up → ev.code ≠ .Char '+' →
        ev.code ≠ .Char '-' → ev.code ≠ .Enter → ev.code ≠ .Esc →
        read_input (.Key ev) = .None)
    ∧ (∀ w h, read_input (.Resize w h) = .None)
    ∧ read_input .Mouse = .None := by
  refine ⟨fun _ => rfl, fun _ => rfl, fun _ => rfl, fun _ => rfl, fun _ => rfl,
    fun _ => rfl, ?_, fun _ _ => rfl, rfl⟩
  rintro ⟨c, m⟩ h1 h2 h3 h4 h5 h6
  simp only at h1 h2 h3 h4 h5 h6
  unfold read_input
  split <;> simp_all

/-- Witness for C2 at a concrete unmapped key with nonzero modifiers. -/
theorem read_input_classification_witness :
    read_input (.Key ⟨.Char 'q', ⟨3⟩⟩) = .None :=
  read_input_classification.2.2.2.2.2.2.1 ⟨.Char 'q', ⟨3⟩⟩ (by decide) (by decide)
    (by decide) (by decide) (by decide) (by decide)

/-- C7: markdown layout: when the terminal accommodates twice the margin
in both dimensions, the area width is the minimum of the document's
required width, which text_size computes as one plus the longest line's
length, and the terminal width minus twice the margin; the area height is
the terminal height minus twice the margin; and the origin centers the
area by floor division. Concretely, for the fixture document whose longest
line is forty characters, an 80 by 24 terminal at margin 2 yields a 41 by
20 rectangle at x 19, y 2. -/
theorem markdown_layout :
    (∀ w h m (doc : String), 2 * m ≤ w → 2 * m ≤ h → w < 65536 → m < 65536 →
      markdownArea w h m (text_size doc).1 =
        some ((w - min (text_size doc).1 (w - 2 * m)) / 2, (h - (h - 2 * m)) / 2,
          min (text_size doc).1 (w - 2 * m), h - 2 * m))
    ∧ (text_size doc40).1 = 1 + 40
    ∧ markdownArea 80 24 2 (text_size doc40).1 = some (19, 2, 41, 20) := by
  refine ⟨?_, rfl, rfl⟩
  intro w h m doc hw hh hw16 hm16
  unfold markdownArea checkedSub
  rw [Nat.mod_eq_of_lt hm16]
  have h1 : m * 2 ≤ w := by omega
  have h2 : m * 2 ≤ h := by omega
  simp only [h1, h2, if_pos]
  have hmin : min (text_size doc).1 (w - m * 2) % 65536 = min (text_size doc).1 (w - m * 2) := by
    apply Nat.mod_eq_of_lt
    have : min (text_size doc).1 (w - m * 2) ≤ w - m * 2 := min_le_right _ _
    omega
  rw [hmin]
  have hw2 : w - m * 2 = w - 2 * m := by omega
  have hh2 : h - m * 2 = h - 2 * m := by omega
  rw [hw2, hh2]
  simp [Nat.zero_max]

/-- Witness for C7 applying the layout formula at the concrete scenario. -/
theorem markdown_layout_witness :
    markdownArea 80 24 2 (text_size doc40).1 =
      some ((80 - min (text_size doc40).1 (80 - 2 * 2)) / 2, (24 - (24 - 2 * 2)) / 2,
        min (text_size doc40).1 (80 - 2 * 2), 24 - 2 * 2) :=
  markdown_layout.1 80 24 2 doc40 (by omega) (by omega) (by omega) (by omega)

/-- C8 as stated is false on the code: a source slide whose single line is
one hundred characters on an 80 by 24 terminal makes the centered-origin
subtraction underflow, so rendering aborts with a panic, modelled by the
crash error, instead of drawing untruncated content. -/
theorem code_overflow_counterexample :
    codeOrigin 80 24 (text_size wideSrc).1 (text_size wideSrc).2 = none
    ∧ render idStr idStr fsWide 80 24 2 (.Code "main.rs") = .error .crash :=
  ⟨rfl, rfl⟩

/-- C8 amended: the source-slide origin computation fails, modelling the
underflow panic, exactly when the u16-cast content size exceeds the
terminal in width (one plus the longest line beyond the terminal width)
or in height (line count beyond the terminal height); and whenever the
origin computation succeeds, the render writes every content line in
full, one positioned write per line, with no truncation. -/
theorem code_layout :
    (∀ w h tw th, codeOrigin w h tw th = none ↔ (w < tw % 65536 ∨ h < th % 65536))
    ∧ (∀ fig hl fs w h m p content x y, fs p = some content →
        codeOrigin w h (text_size content).1 (text_size content).2 = some (x, y) →
        render fig hl fs w h m (.Code p) =
          .ok (.writes ((rustLines content).enum.map fun il => (x, y + il.1, hl il.2)))) := by
  constructor
  · intro w h tw th
    unfold codeOrigin checkedSub
    by_cases h1 : tw % 65536 ≤ w
    · by_cases h2 : th % 65536 ≤ h
      · simp [h1, h2]
      · simp [h1, h2]
        omega
    · simp [h1]
      omega
  · intro fig hl fs w h m p content x y hfs horig
    simp only [render, hfs, horig]

/-- Witness for the amended C8 at a source file that fits the terminal. -/
theorem code_layout_witness :
    render idStr idStr fsSmall 80 24 2 (.Code "s.rs") =
      .ok (.writes ((rustLines smallSrc).enum.map fun il => (36, 11 + il.1, idStr il.2))) :=
  code_layout.2 idStr idStr fsSmall 80 24 2 "s.rs" smallSrc 36 11 rfl rfl

/-- C10: for every slide kind except Markdown the rendering ignores the
margin entirely: any two margin values produce identical output. -/
theorem render_margin_independent (fig hl : String → String) (fs : String → Option String)
    (w h m1 m2 : Nat) (slide : FileTypes) (hsl : isMarkdown slide = false) :
    render fig hl fs w h m1 slide = render fig hl fs w h m2 slide := by
  cases slide <;> first | rfl | simp [isMarkdown] at hsl

/-- Witness for C10: a text slide renders identically at margins 0 and 9. -/
theorem render_margin_independent_witness :
    render idStr idStr fsDoc 80 24 0 (.Print "hi") =
      render idStr idStr fsDoc 80 24 9 (.Print "hi") :=
  render_margin_independent idStr idStr fsDoc 80 24 0 9 (.Print "hi") rfl

/-- Helper: an iteration whose current index holds no slide ends the
loop. -/
theorem present_none (slides : Slides) (r : FileTypes → Nat → Except RenderErr Unit)
    (a : FileTypes → Except RenderErr Unit) (ins : List Input) (s : PState)
    (h : slides.files.get? s.idx = none) : present slides r a ins s = .ended := by
  cases ins with
  | nil =>
    show finalIter slides r s = .ended
    unfold finalIter
    rw [h]
  | cons inp rest =>
    rw [present]
    unfold iterate
    rw [h]

/-- Helper: an iteration that finds a slide, renders it successfully and
reads a Next command recurses with the stepped state. -/
theorem present_cons_next (slides : Slides) (r : FileTypes → Nat → Except RenderErr Unit)
    (a : FileTypes → Except RenderErr Unit) (ins : List Input) (s : PState) (f : FileTypes)
    (hf : slides.files.get? s.idx = some f) (hr : r f s.margin = .ok ()) :
    present slides r a (.Next :: ins) s = present slides r a ins (step .Next s) := by
  rw [present]
  unfold iterate
  rw [hf]
  dsimp only
  rw [hr]

/-- Helper: with rendering succeeding and at least enough Next commands to
walk the index past the end of the deck, the loop reaches the ended
outcome. -/
theorem present_next_ended (slides : Slides) (hlen : slides.files.length ≤ usizeMax) :
    ∀ (n i m : Nat), slides.files.length ≤ i + n →
      present slides okRender okAction (List.replicate n .Next) ⟨i, m⟩ = .ended := by
  intro n
  induction n with
  | zero =>
    intro i m hle
    exact present_none _ _ _ _ _ (List.get?_eq_none.mpr (show slides.files.length ≤ i by omega))
  | succ n ih =>
    intro i m hle
    rcases le_or_lt slides.files.length i with hi | hi
    · exact present_none _ _ _ _ _ (List.get?_eq_none.mpr hi)
    · rw [List.replicate_succ]
      rw [present_cons_next slides okRender okAction _ _ _ (List.get?_eq_get hi) rfl]
      have hstep : step .Next ⟨i, m⟩ = ⟨i + 1, m⟩ := by
        simp only [step, satAdd]
        congr 1
        omega
      rw [hstep]
      exact ih (i + 1) m (by omega)

/-- C9: with rendering succeeding, a deck of length N started at index 0
is terminated after N plus one Next commands; more generally, any
iteration whose current index holds no slide ends the loop with the
normal end-of-deck exit, whatever the remaining inputs and oracles. -/
theorem next_past_end_terminates :
    (∀ (slides : Slides) (m N : Nat), slides.files.length = N → N ≤ usizeMax →
      present slides okRender okAction (List.replicate (N + 1) .Next) ⟨0, m⟩ = .ended)
    ∧ (∀ slides r a ins (s : PState), slides.files.get? s.idx = none →
        present slides r a ins s = .ended) := by
  constructor
  · intro slides m N hN hle
    exact present_next_ended slides (hN ▸ hle) (N + 1) 0 m (by omega)
  · intro slides r a ins s hnone
    exact present_none slides r a ins s hnone

/-- Witness for C9 with a one-slide deck, two Next commands, and a second
part instance at an empty deck. -/
theorem next_past_end_terminates_witness :
    present ⟨[.Print "a"]⟩ okRender okAction (List.replicate 2 .Next) ⟨0, 2⟩ = .ended
    ∧ present ⟨[]⟩ badRender okAction [] ⟨0, 2⟩ = .ended :=
  ⟨next_past_end_terminates.1 ⟨[.Print "a"]⟩ 2 1 rfl (by rw [usizeMax_eq]; omega),
    next_past_end_terminates.2 ⟨[]⟩ badRender okAction [] ⟨0, 2⟩ rfl⟩

/-- C3 as stated is false on the code: with a single-slide deck whose
render errors, the loop propagates the failure, and the early return of
the question-mark operator in fn main skips both the cursor-show and the
raw-mode-disable teardown calls, leaving the terminal in raw mode with
the cursor hidden. -/
theorem teardown_skipped_on_error :
    present ⟨[.Print "x"]⟩ badRender okAction [] ⟨0, 2⟩ = .failed .ioError
    ∧ mainTrace ⟨[.Print "x"]⟩ badRender okAction [] = [.enableRaw, .hideCursor]
    ∧ TermOp.showCursor ∉ mainTrace ⟨[.Print "x"]⟩ badRender okAction []
    ∧ TermOp.disableRaw ∉ mainTrace ⟨[.Print "x"]⟩ badRender okAction [] :=
  ⟨rfl, rfl, by decide, by decide⟩

/-- C3 amended: when render or activation errors the session aborts, but
the teardown of fn main is skipped by the early return: the operation
trace stops after raw-mode enable and cursor hide, and neither the
cursor-show nor the raw-mode-disable operation is performed before exit;
the full ordered teardown runs only on a clean quit or end-of-deck
exit. -/
theorem error_skips_teardown (slides : Slides) (r : FileTypes → Nat → Except RenderErr Unit)
    (a : FileTypes → Except RenderErr Unit) (ins : List Input) :
    (∀ e, present slides r a ins ⟨0, 2⟩ = .failed e →
      mainTrace slides r a ins = [.enableRaw, .hideCursor]
      ∧ TermOp.showCursor ∉ mainTrace slides r a ins
      ∧ TermOp.disableRaw ∉ mainTrace slides r a ins)
    ∧ (present slides r a ins ⟨0, 2⟩ = .quit ∨ present slides r a ins ⟨0, 2⟩ = .ended →
      mainTrace slides r a ins = [.enableRaw, .hideCursor, .showCursor, .disableRaw]) := by
  constructor
  · intro e he
    unfold mainTrace
    rw [he]
    dsimp only
    exact ⟨rfl, by decide, by decide⟩
  · intro hc
    unfold mainTrace
    rcases hc with h | h <;> rw [h]

/-- Witness for the amended C3 at a concrete erroring deck and a concrete
quitting run. -/
theorem error_skips_teardown_witness :
    (mainTrace ⟨[.Print "y"]⟩ badRender okAction [] = [.enableRaw, .hideCursor]
      ∧ TermOp.showCursor ∉ mainTrace ⟨[.Print "y"]⟩ badRender okAction []
      ∧ TermOp.disableRaw ∉ mainTrace ⟨[.Print "y"]⟩ badRender okAction [])
    ∧ mainTrace ⟨[.Print "y"]⟩ okRender okAction [.Quit] =
        [.enableRaw, .hideCursor, .showCursor, .disableRaw] :=
  ⟨(error_skips_teardown ⟨[.Print "y"]⟩ badRender okAction []).1 .ioError rfl,
    (error_skips_teardown ⟨[.Print "y"]⟩ okRender okAction [.Quit]).2 (Or.inl rfl)⟩

end Presentui
